import Mathlib

/-!
# Verification of the Tidal search view (strawberry)

A shallow embedding of `src/tidal/tidalsearchview.cpp`: the debounced
front/back result-model swap and the id-correlated query dispatch.  The
GUI widget plumbing (icons, palettes, menus, settings persistence) is out
of scope; the embedding keeps exactly the state that the verified
properties are about: the two result models and the pointers into them,
the outstanding search id, the swap timer, the stacked help/results page,
the artwork-request map, and the engine actions emitted.

All mutations are single-threaded (Qt queued connections deliver engine
callbacks onto the GUI thread), so the component is a sequential state
machine: each slot invocation is one atomic step on `TidalSearchView`.
-/

namespace Strawberry

/-- Embedding of `QString::trimmed()`: remove leading and trailing
whitespace.  (`String.trim` of core Lean is extensionally the same but is
defined by well-founded recursion on byte positions, which the kernel
cannot evaluate; this structural definition reduces.) -/
def qtrim (s : String) : String :=
  ⟨((s.data.dropWhile Char.isWhitespace).reverse.dropWhile Char.isWhitespace).reverse⟩

/-- A search result record (`TidalSearch::Result`).  Its fields play no
role in the verified properties, so it is kept abstract as a key. -/
structure Result where
  key : String
deriving DecidableEq, Repr

/-- `TidalSearch::ResultList` (`QList<Result>`). -/
abbrev ResultList := List Result

/-- `CollectionModel::Grouping`: an ordered triple of grouping dimensions.
The `GroupBy` enumerators are integers in the source. -/
structure Grouping where
  first : Nat
  second : Nat
  third : Nat
deriving DecidableEq, Repr

/-- `TidalSettingsPage::SearchBy`. -/
inductive SearchBy where
  | songs
  | albums
deriving DecidableEq, Repr

/-- Modelled from the spec: a `ResultContainer` (`TidalSearchModel`, whose
implementation is not part of the sampled sources) holds an ordered
sequence of result records together with the grouping currently applied
to it. -/
structure TidalSearchModel where
  songs : List Result
  grouping : Grouping
deriving DecidableEq, Repr

namespace TidalSearchModel

/-- Modelled from the spec: `TidalSearchModel::Clear` empties the
container (containers "are never destroyed individually, only cleared and
refilled"). -/
def Clear (m : TidalSearchModel) : TidalSearchModel :=
  { m with songs := [] }

/-- Modelled from the spec: `TidalSearchModel::AddResults` appends the
delivered records to the container's ordered sequence. -/
def AddResults (m : TidalSearchModel) (results : ResultList) : TidalSearchModel :=
  { m with songs := m.songs ++ results }

/-- Modelled from the spec: `TidalSearchModel::SetGroupBy` re-applies the
grouping to the container's existing records (items are removed/re-added,
no record is lost); the `signal` flag only controls change notification. -/
def SetGroupBy (m : TidalSearchModel) (g : Grouping) (signal : Bool) : TidalSearchModel :=
  { m with grouping := g }

end TidalSearchModel

/-- Identity of the two model objects allocated in the constructor
(`front_model_` / `back_model_` initially point to `mA` / `mB`; the
pointers are later exchanged by `std::swap`, the objects never move). -/
inductive MPtr where
  | mA
  | mB
deriving DecidableEq, Repr

/-- The other object: `std::swap` on two pointers over a two-object pool. -/
def MPtr.other : MPtr → MPtr
  | .mA => .mB
  | .mB => .mA

/-- The page shown by `ui_->results_stack`. -/
inductive Page where
  | help_page
  | results_page
deriving DecidableEq, Repr

/-- Calls the view makes into the `TidalSearch` engine.  `SearchAsync`
returns a fresh id; the action records it so traces can speak about the
ids the engine issued. -/
inductive EngineAction where
  | cancelSearch (id : Int)
  | searchAsync (id : Int) (query : String) (searchby : SearchBy)
deriving DecidableEq, Repr

/-- The ids of the searches issued in a trace of engine actions, in
order. -/
def issuedIds (as : List EngineAction) : List Int :=
  as.filterMap fun a =>
    match a with
    | .searchAsync id _ _ => some id
    | _ => none

/-- `TidalSearchView::kSwapModelsTimeoutMsec`. -/
def kSwapModelsTimeoutMsec : Nat := 250

/-- The state of one `TidalSearchView`.

* `modelA`, `modelB`: the two model objects; `front_model`,
  `current_model` are the pointer fields of the source (`back_model_` is
  always the other object of `front_model_`, see the constructor).
* `front_proxy` / `current_proxy`: the sort-proxy pointers, swapped in
  lockstep with the models.
* `results_view_model`: which proxy `ui_->results` currently displays
  (`none` until the first `setModel` call in `SwapModels`).
* `swap_timer_active` / `swap_timer_interval`: the single-shot
  `swap_models_timer_`.
* `engine_next_id`: the engine's id counter (the engine assigns fresh
  positive ids to `SearchAsync` calls). -/
structure TidalSearchView where
  last_search_id : Int
  modelA : TidalSearchModel
  modelB : TidalSearchModel
  front_model : MPtr
  current_model : MPtr
  front_proxy : MPtr
  current_proxy : MPtr
  swap_timer_active : Bool
  swap_timer_interval : Nat
  search_text : String
  label_helptext : String
  results_stack : Page
  results_view_model : Option MPtr
  error : Bool
  art_requests : List (Int × Nat)
  searchby : SearchBy
  engine_next_id : Int
deriving DecidableEq, Repr

namespace TidalSearchView

/-- The model object a pointer refers to. -/
def modelAt (s : TidalSearchView) : MPtr → TidalSearchModel
  | .mA => s.modelA
  | .mB => s.modelB

/-- Mutate the model object a pointer refers to. -/
def setModelAt (s : TidalSearchView) : MPtr → TidalSearchModel → TidalSearchView
  | .mA, m => { s with modelA := m }
  | .mB, m => { s with modelB := m }

/-- The state after the constructor: `last_search_id_(0)`,
`current_model_(front_model_)`, `current_proxy_(front_proxy_)`, the
single-shot timer set to `kSwapModelsTimeoutMsec` and not running, the
help page shown initially.  The engine starts handing out ids at 1. -/
def initView : TidalSearchView :=
  { last_search_id := 0
    modelA := { songs := [], grouping := ⟨1, 2, 0⟩ }
    modelB := { songs := [], grouping := ⟨1, 2, 0⟩ }
    front_model := .mA
    current_model := .mA
    front_proxy := .mA
    current_proxy := .mA
    swap_timer_active := false
    swap_timer_interval := kSwapModelsTimeoutMsec
    search_text := ""
    label_helptext := ""
    results_stack := .help_page
    results_view_model := none
    error := false
    art_requests := []
    searchby := .songs
    engine_next_id := 1 }

/-- `TidalSearchView::TextEdited`: clear the back model, make it the
write target, (re)start the swap timer, cancel the previous search, and
either fall back to the sentinel id `-1` (trimmed-empty text) or issue a
new asynchronous search whose fresh id becomes outstanding.  Returns the
new state together with the engine calls made, in order. -/
def TextEdited (s : TidalSearchView) (text : String) :
    TidalSearchView × List EngineAction :=
  let trimmed := qtrim text
  let s := { s with error := false }
  let s := s.setModelAt s.front_model.other ((s.modelAt s.front_model.other).Clear)
  let s := { s with
    current_model := s.front_model.other
    current_proxy := s.front_proxy.other
    swap_timer_active := true }
  let cancel := EngineAction.cancelSearch s.last_search_id
  if trimmed = "" then
    ({ s with
        last_search_id := -1
        label_helptext := "Enter search terms above to find music" },
     [cancel])
  else
    ({ s with
        last_search_id := s.engine_next_id
        engine_next_id := s.engine_next_id + 1 },
     [cancel, EngineAction.searchAsync s.engine_next_id trimmed s.searchby])

/-- `TidalSearchView::AddResults(id, results)`: drop the event unless its
id is the outstanding one and the list is non-empty; otherwise append to
the current (write-target) model. -/
def AddResults (s : TidalSearchView) (id : Int) (results : ResultList) :
    TidalSearchView :=
  if id ≠ s.last_search_id then s
  else if results = [] then s
  else s.setModelAt s.current_model ((s.modelAt s.current_model).AddResults results)

/-- `TidalSearchView::SearchError(id, error)`: the source sets the error
flag, puts the message into the help label and shows the help page —
without consulting `id` (the parameter is declared but never read). -/
def SearchError (s : TidalSearchView) (id : Int) (error : String) :
    TidalSearchView :=
  { s with
      error := true
      label_helptext := error
      results_stack := .help_page }

/-- `TidalSearchView::SwapModels`: clear the artwork-request map,
`std::swap` the front/back model and proxy pointers, point the results
view at the (new) front proxy, and show the help page when the search box
is trimmed-empty or an error was flagged, else the results page. -/
def SwapModels (s : TidalSearchView) : TidalSearchView :=
  let s := { s with art_requests := [] }
  let s := { s with
    front_model := s.front_model.other
    front_proxy := s.front_proxy.other }
  let s := { s with results_view_model := some s.front_proxy }
  if qtrim s.search_text = "" ∨ s.error = true then
    { s with results_stack := .help_page }
  else
    { s with results_stack := .results_page }

/-- `ui_->search->setText(query)`: updates the line edit and fires
`textChanged` — hence `TextEdited` — only when the text actually
changes. -/
def setText (s : TidalSearchView) (query : String) :
    TidalSearchView × List EngineAction :=
  if s.search_text = query then (s, [])
  else ({ s with search_text := query }).TextEdited query

/-- `TidalSearchView::StartSearch(query)`: set the box text (which may
re-enter `TextEdited` through `textChanged`), call `TextEdited`
explicitly, then stop the swap timer and swap models immediately. -/
def StartSearch (s : TidalSearchView) (query : String) :
    TidalSearchView × List EngineAction :=
  let sa1 := s.setText query
  let sa2 := sa1.1.TextEdited query
  let s3 := { sa2.1 with swap_timer_active := false }
  (s3.SwapModels, sa1.2 ++ sa2.2)

/-- `TidalSearchView::SetGroupBy(g)`: clear the artwork requests (the
model indices they hold become invalid), then re-apply the grouping to
the front model (with change signal) and the back model (without).  The
`QSettings` write and menu checkmark update are GUI plumbing outside the
embedded state. -/
def SetGroupBy (s : TidalSearchView) (g : Grouping) : TidalSearchView :=
  let s := { s with art_requests := [] }
  let s := s.setModelAt s.front_model ((s.modelAt s.front_model).SetGroupBy g true)
  s.setModelAt s.front_model.other ((s.modelAt s.front_model.other).SetGroupBy g false)

end TidalSearchView

/-- The externally triggered events of the component: user edits to the
search box, the programmatic immediate search, the single-shot timer
firing, the queued engine callbacks, and a grouping change. -/
inductive Event where
  | textChanged (text : String)
  | startSearch (query : String)
  | timerTimeout
  | addResults (id : Int) (results : ResultList)
  | searchError (id : Int) (message : String)
  | setGroupBy (g : Grouping)
deriving DecidableEq, Repr

open TidalSearchView in
/-- One atomic step of the view: dispatch an event to its slot.  A
stopped single-shot timer does not fire. -/
def step (s : TidalSearchView) : Event → TidalSearchView × List EngineAction
  | .textChanged text => ({ s with search_text := text }).TextEdited text
  | .startSearch query => s.StartSearch query
  | .timerTimeout =>
      if s.swap_timer_active then
        (({ s with swap_timer_active := false }).SwapModels, [])
      else (s, [])
  | .addResults id results => (s.AddResults id results, [])
  | .searchError id message => (s.SearchError id message, [])
  | .setGroupBy g => (s.SetGroupBy g, [])

/-- Run a sequence of events, accumulating the engine actions emitted. -/
def run (s : TidalSearchView) : List Event → TidalSearchView × List EngineAction
  | [] => (s, [])
  | e :: es =>
      let sa := step s e
      let sa' := run sa.1 es
      (sa'.1, sa.2 ++ sa'.2)

/-! ## Basic lemmas about the embedding -/

@[simp]
lemma MPtr.other_other (p : MPtr) : p.other.other = p := by
  cases p <;> rfl

namespace TidalSearchView

@[simp]
lemma modelAt_setModelAt_same (s : TidalSearchView) (p : MPtr) (m : TidalSearchModel) :
    (s.setModelAt p m).modelAt p = m := by
  cases p <;> rfl

lemma modelAt_setModelAt_other (s : TidalSearchView) (p q : MPtr) (m : TidalSearchModel)
    (h : p ≠ q) : (s.setModelAt p m).modelAt q = s.modelAt q := by
  cases p <;> cases q <;> first | rfl | exact absurd rfl h

@[simp]
lemma setModelAt_front_model (s : TidalSearchView) (p : MPtr) (m : TidalSearchModel) :
    (s.setModelAt p m).front_model = s.front_model := by
  cases p <;> rfl

@[simp]
lemma setModelAt_front_proxy (s : TidalSearchView) (p : MPtr) (m : TidalSearchModel) :
    (s.setModelAt p m).front_proxy = s.front_proxy := by
  cases p <;> rfl

@[simp]
lemma setModelAt_current_model (s : TidalSearchView) (p : MPtr) (m : TidalSearchModel) :
    (s.setModelAt p m).current_model = s.current_model := by
  cases p <;> rfl

@[simp]
lemma setModelAt_last_search_id (s : TidalSearchView) (p : MPtr) (m : TidalSearchModel) :
    (s.setModelAt p m).last_search_id = s.last_search_id := by
  cases p <;> rfl

@[simp]
lemma setModelAt_engine_next_id (s : TidalSearchView) (p : MPtr) (m : TidalSearchModel) :
    (s.setModelAt p m).engine_next_id = s.engine_next_id := by
  cases p <;> rfl

@[simp]
lemma setModelAt_swap_timer_active (s : TidalSearchView) (p : MPtr) (m : TidalSearchModel) :
    (s.setModelAt p m).swap_timer_active = s.swap_timer_active := by
  cases p <;> rfl

@[simp]
lemma setModelAt_swap_timer_interval (s : TidalSearchView) (p : MPtr) (m : TidalSearchModel) :
    (s.setModelAt p m).swap_timer_interval = s.swap_timer_interval := by
  cases p <;> rfl

@[simp]
lemma setModelAt_search_text (s : TidalSearchView) (p : MPtr) (m : TidalSearchModel) :
    (s.setModelAt p m).search_text = s.search_text := by
  cases p <;> rfl

@[simp]
lemma setModelAt_error (s : TidalSearchView) (p : MPtr) (m : TidalSearchModel) :
    (s.setModelAt p m).error = s.error := by
  cases p <;> rfl

@[simp]
lemma setModelAt_art_requests (s : TidalSearchView) (p : MPtr) (m : TidalSearchModel) :
    (s.setModelAt p m).art_requests = s.art_requests := by
  cases p <;> rfl

/-- `SwapModels` written out as a single record update. -/
lemma swapModels_eq (s : TidalSearchView) :
    s.SwapModels =
      { s with
          art_requests := []
          front_model := s.front_model.other
          front_proxy := s.front_proxy.other
          results_view_model := some s.front_proxy.other
          results_stack :=
            if qtrim s.search_text = "" ∨ s.error = true then Page.help_page
            else Page.results_page } := by
  unfold TidalSearchView.SwapModels
  by_cases h : qtrim s.search_text = "" ∨ s.error = true <;> simp [h]

/-- `TextEdited` written out branchwise as record updates. -/
lemma textEdited_eq (s : TidalSearchView) (text : String) :
    s.TextEdited text =
      (if qtrim text = "" then
         ({ s.setModelAt s.front_model.other ((s.modelAt s.front_model.other).Clear) with
             error := false
             current_model := s.front_model.other
             current_proxy := s.front_proxy.other
             swap_timer_active := true
             last_search_id := -1
             label_helptext := "Enter search terms above to find music" },
          [EngineAction.cancelSearch s.last_search_id])
       else
         ({ s.setModelAt s.front_model.other ((s.modelAt s.front_model.other).Clear) with
             error := false
             current_model := s.front_model.other
             current_proxy := s.front_proxy.other
             swap_timer_active := true
             last_search_id := s.engine_next_id
             engine_next_id := s.engine_next_id + 1 },
          [EngineAction.cancelSearch s.last_search_id,
           EngineAction.searchAsync s.engine_next_id (qtrim text) s.searchby])) := by
  unfold TidalSearchView.TextEdited TidalSearchView.setModelAt TidalSearchView.modelAt
  by_cases h : qtrim text = "" <;> cases s.front_model <;> simp [h, MPtr.other]

lemma textEdited_front_model (s : TidalSearchView) (text : String) :
    (s.TextEdited text).1.front_model = s.front_model := by
  rw [textEdited_eq]
  split <;> simp

lemma textEdited_front_proxy (s : TidalSearchView) (text : String) :
    (s.TextEdited text).1.front_proxy = s.front_proxy := by
  rw [textEdited_eq]
  split <;> simp

lemma textEdited_current_model (s : TidalSearchView) (text : String) :
    (s.TextEdited text).1.current_model = s.front_model.other := by
  rw [textEdited_eq]
  split <;> simp

lemma textEdited_current_proxy (s : TidalSearchView) (text : String) :
    (s.TextEdited text).1.current_proxy = s.front_proxy.other := by
  rw [textEdited_eq]
  split <;> simp

lemma textEdited_timer_active (s : TidalSearchView) (text : String) :
    (s.TextEdited text).1.swap_timer_active = true := by
  rw [textEdited_eq]
  split <;> simp

lemma textEdited_interval (s : TidalSearchView) (text : String) :
    (s.TextEdited text).1.swap_timer_interval = s.swap_timer_interval := by
  rw [textEdited_eq]
  split <;> simp

lemma textEdited_search_text (s : TidalSearchView) (text : String) :
    (s.TextEdited text).1.search_text = s.search_text := by
  rw [textEdited_eq]
  split <;> simp

lemma textEdited_error (s : TidalSearchView) (text : String) :
    (s.TextEdited text).1.error = false := by
  rw [textEdited_eq]
  split <;> simp

lemma textEdited_back_cleared (s : TidalSearchView) (text : String) :
    ((s.TextEdited text).1.modelAt ((s.TextEdited text).1.front_model).other).songs = [] := by
  rw [textEdited_eq]
  split <;> cases hf : s.front_model <;>
    simp [hf, TidalSearchView.modelAt, TidalSearchView.setModelAt, MPtr.other,
      TidalSearchModel.Clear]

lemma swapModels_interval (s : TidalSearchView) :
    (s.SwapModels).swap_timer_interval = s.swap_timer_interval := by
  rw [swapModels_eq]

lemma swapModels_timer_active (s : TidalSearchView) :
    (s.SwapModels).swap_timer_active = s.swap_timer_active := by
  rw [swapModels_eq]

lemma swapModels_current_model (s : TidalSearchView) :
    (s.SwapModels).current_model = s.current_model := by
  rw [swapModels_eq]

lemma swapModels_view_is_front (s : TidalSearchView) :
    (s.SwapModels).results_view_model = some (s.SwapModels).front_proxy := by
  simp [swapModels_eq]

lemma swapModels_results_stack (s : TidalSearchView) :
    (s.SwapModels).results_stack =
      (if qtrim s.search_text = "" ∨ s.error = true then Page.help_page
       else Page.results_page) := by
  simp [swapModels_eq]

lemma setText_search_text (s : TidalSearchView) (query : String) :
    (s.setText query).1.search_text = query := by
  unfold TidalSearchView.setText
  split
  · next h => exact h
  · rw [textEdited_search_text]

lemma setText_interval (s : TidalSearchView) (query : String) :
    (s.setText query).1.swap_timer_interval = s.swap_timer_interval := by
  unfold TidalSearchView.setText
  split
  · rfl
  · rw [textEdited_interval]

lemma startSearch_interval (s : TidalSearchView) (query : String) :
    (s.StartSearch query).1.swap_timer_interval = s.swap_timer_interval := by
  unfold TidalSearchView.StartSearch
  simp [swapModels_interval, textEdited_interval, setText_interval]

lemma swapModels_last_search_id (s : TidalSearchView) :
    (s.SwapModels).last_search_id = s.last_search_id := by
  rw [swapModels_eq]

lemma swapModels_engine_next_id (s : TidalSearchView) :
    (s.SwapModels).engine_next_id = s.engine_next_id := by
  rw [swapModels_eq]

lemma addResults_last_search_id (s : TidalSearchView) (i : Int) (rs : ResultList) :
    (s.AddResults i rs).last_search_id = s.last_search_id := by
  unfold TidalSearchView.AddResults
  split
  · rfl
  · split
    · rfl
    · simp

lemma addResults_engine_next_id (s : TidalSearchView) (i : Int) (rs : ResultList) :
    (s.AddResults i rs).engine_next_id = s.engine_next_id := by
  unfold TidalSearchView.AddResults
  split
  · rfl
  · split
    · rfl
    · simp

lemma setGroupBy_last_search_id (s : TidalSearchView) (g : Grouping) :
    (s.SetGroupBy g).last_search_id = s.last_search_id := by
  unfold TidalSearchView.SetGroupBy
  simp

lemma setGroupBy_engine_next_id (s : TidalSearchView) (g : Grouping) :
    (s.SetGroupBy g).engine_next_id = s.engine_next_id := by
  unfold TidalSearchView.SetGroupBy
  simp

end TidalSearchView

open TidalSearchView

@[simp]
lemma issuedIds_nil : issuedIds [] = [] := rfl

@[simp]
lemma issuedIds_cancel (j : Int) : issuedIds [EngineAction.cancelSearch j] = [] := rfl

lemma issuedIds_append (as bs : List EngineAction) :
    issuedIds (as ++ bs) = issuedIds as ++ issuedIds bs := by
  simp [issuedIds, List.filterMap_append]

/-- The correlation invariant tying the view state to the engine actions
emitted so far: every issued search id is positive, the engine's counter
stays positive, and the outstanding id is either the sentinel `-1`, the
constructor's `0` (only while no search was ever issued), or the most
recently issued id. -/
def IdInv (s : TidalSearchView) (as : List EngineAction) : Prop :=
  (∀ i ∈ issuedIds as, 1 ≤ i) ∧
  1 ≤ s.engine_next_id ∧
  (s.last_search_id = -1 ∨
   (s.last_search_id = 0 ∧ issuedIds as = []) ∨
   (issuedIds as).getLast? = some s.last_search_id)

lemma idInv_congr (s t : TidalSearchView) (as : List EngineAction)
    (h1 : t.last_search_id = s.last_search_id)
    (h2 : t.engine_next_id = s.engine_next_id)
    (h : IdInv s as) : IdInv t as := by
  rcases h with ⟨ha, hb, hc⟩
  exact ⟨ha, by rw [h2]; exact hb, by rw [h1]; exact hc⟩

lemma textEdited_last_search_id (s : TidalSearchView) (text : String) :
    (s.TextEdited text).1.last_search_id =
      (if qtrim text = "" then -1 else s.engine_next_id) := by
  rw [textEdited_eq]
  split <;> simp

lemma textEdited_engine_next_id (s : TidalSearchView) (text : String) :
    (s.TextEdited text).1.engine_next_id =
      (if qtrim text = "" then s.engine_next_id else s.engine_next_id + 1) := by
  rw [textEdited_eq]
  split <;> simp

lemma textEdited_actions (s : TidalSearchView) (text : String) :
    (s.TextEdited text).2 =
      (if qtrim text = "" then [EngineAction.cancelSearch s.last_search_id]
       else [EngineAction.cancelSearch s.last_search_id,
             EngineAction.searchAsync s.engine_next_id (qtrim text) s.searchby]) := by
  rw [textEdited_eq]
  split <;> simp

lemma textEdited_IdInv (s : TidalSearchView) (text : String) (as : List EngineAction)
    (h : IdInv s as) : IdInv (s.TextEdited text).1 (as ++ (s.TextEdited text).2) := by
  rcases h with ⟨ha, hb, hc⟩
  by_cases ht : qtrim text = ""
  · refine ⟨?_, ?_, Or.inl ?_⟩
    · intro i hi
      rw [issuedIds_append, textEdited_actions, if_pos ht] at hi
      simp only [issuedIds_cancel, List.append_nil] at hi
      exact ha i hi
    · rw [textEdited_engine_next_id, if_pos ht]
      exact hb
    · rw [textEdited_last_search_id, if_pos ht]
  · refine ⟨?_, ?_, Or.inr (Or.inr ?_)⟩
    · intro i hi
      rw [issuedIds_append, textEdited_actions, if_neg ht] at hi
      rcases List.mem_append.mp hi with hi | hi
      · exact ha i hi
      · have : i = s.engine_next_id := by
          simpa [issuedIds] using hi
        omega
    · rw [textEdited_engine_next_id, if_neg ht]
      omega
    · rw [textEdited_actions, if_neg ht, textEdited_last_search_id, if_neg ht,
        issuedIds_append]
      simp [issuedIds]

lemma setText_IdInv (s : TidalSearchView) (query : String) (as : List EngineAction)
    (h : IdInv s as) : IdInv (s.setText query).1 (as ++ (s.setText query).2) := by
  unfold TidalSearchView.setText
  split
  · simpa using h
  · exact textEdited_IdInv _ query as (idInv_congr s _ as rfl rfl h)

lemma startSearch_IdInv (s : TidalSearchView) (query : String) (as : List EngineAction)
    (h : IdInv s as) : IdInv (s.StartSearch query).1 (as ++ (s.StartSearch query).2) := by
  have h1 := setText_IdInv s query as h
  have h2 := textEdited_IdInv (s.setText query).1 query (as ++ (s.setText query).2) h1
  show IdInv (({ ((s.setText query).1.TextEdited query).1 with
      swap_timer_active := false } : TidalSearchView).SwapModels)
    (as ++ ((s.setText query).2 ++ ((s.setText query).1.TextEdited query).2))
  rw [← List.append_assoc]
  refine idInv_congr _ _ _ ?_ ?_ h2
  · rw [swapModels_last_search_id]
  · rw [swapModels_engine_next_id]

lemma step_IdInv (s : TidalSearchView) (e : Event) (as : List EngineAction)
    (h : IdInv s as) : IdInv (step s e).1 (as ++ (step s e).2) := by
  cases e with
  | textChanged t =>
      exact textEdited_IdInv ({ s with search_text := t }) t as
        (idInv_congr s ({ s with search_text := t }) as rfl rfl h)
  | startSearch q => exact startSearch_IdInv s q as h
  | timerTimeout =>
      have hs : step s Event.timerTimeout =
          (if s.swap_timer_active then
            (({ s with swap_timer_active := false }).SwapModels, []) else (s, [])) := rfl
      rw [hs]
      split
      · have hi := idInv_congr s (({ s with swap_timer_active := false }).SwapModels) as
          (by rw [swapModels_last_search_id]) (by rw [swapModels_engine_next_id]) h
        simpa using hi
      · simpa using h
  | addResults i rs =>
      have hi := idInv_congr s (s.AddResults i rs) as
        (addResults_last_search_id s i rs) (addResults_engine_next_id s i rs) h
      simpa [step] using hi
  | searchError i m =>
      have hi := idInv_congr s (s.SearchError i m) as rfl rfl h
      simpa [step] using hi
  | setGroupBy g =>
      have hi := idInv_congr s (s.SetGroupBy g) as
        (setGroupBy_last_search_id s g) (setGroupBy_engine_next_id s g) h
      simpa [step] using hi

lemma run_IdInv (s : TidalSearchView) (es : List Event) (as : List EngineAction)
    (h : IdInv s as) : IdInv (run s es).1 (as ++ (run s es).2) := by
  induction es generalizing s as with
  | nil => simpa [run] using h
  | cons e es ih =>
      show IdInv (run (step s e).1 es).1
        (as ++ ((step s e).2 ++ (run (step s e).1 es).2))
      rw [← List.append_assoc]
      exact ih (step s e).1 (as ++ (step s e).2) (step_IdInv s e as h)

lemma idInv_init : IdInv initView [] := by
  refine ⟨?_, ?_, Or.inr (Or.inl ⟨rfl, rfl⟩)⟩
  · intro i hi
    simp [issuedIds] at hi
  · show (1 : Int) ≤ 1
    exact le_refl 1

/-! ## The claims -/

/-- Claim C6: the swap operation exchanges the roles of the front and
back containers and their sort/filter views in place, with no data copy:
immediately after a swap the front container is exactly the pre-swap back
container and the back container is exactly the pre-swap front container;
the two underlying objects are untouched, so the visible contents are the
pre-swap back contents wholesale — never a partial mix of pre- and
post-swap data. -/
theorem C6_swap_exchanges_roles_in_place (s : TidalSearchView) :
    (s.SwapModels).front_model = s.front_model.other ∧
    (s.SwapModels).front_proxy = s.front_proxy.other ∧
    (s.SwapModels).modelAt (s.SwapModels).front_model = s.modelAt s.front_model.other ∧
    (s.SwapModels).modelAt ((s.SwapModels).front_model).other = s.modelAt s.front_model ∧
    (s.SwapModels).modelA = s.modelA ∧ (s.SwapModels).modelB = s.modelB := by
  rw [swapModels_eq]
  cases s.front_model <;> simp [TidalSearchView.modelAt, MPtr.other]

/-- Claim C7: for all prior contents of the artwork-request map, the map
is empty immediately after any swap operation and immediately after any
regroup operation. -/
theorem C7_art_requests_empty_after_swap_and_regroup (s : TidalSearchView) (g : Grouping) :
    (s.SwapModels).art_requests = [] ∧ (s.SetGroupBy g).art_requests = [] := by
  constructor
  · rw [swapModels_eq]
  · unfold TidalSearchView.SetGroupBy
    simp

/-- Claim C8: a grouping change made while the back container is
accumulating results (the swap timer is armed, i.e. Populating)
re-applies the new grouping to both the front and the back container,
preserves the records already accumulated in both containers, and clears
all pending artwork requests. -/
theorem C8_regroup_preserves_results (s : TidalSearchView) (g : Grouping)
    (hpop : s.swap_timer_active = true) :
    ((s.SetGroupBy g).modelAt (s.SetGroupBy g).front_model).grouping = g ∧
    ((s.SetGroupBy g).modelAt ((s.SetGroupBy g).front_model).other).grouping = g ∧
    ((s.SetGroupBy g).modelAt ((s.SetGroupBy g).front_model).other).songs =
      (s.modelAt s.front_model.other).songs ∧
    ((s.SetGroupBy g).modelAt (s.SetGroupBy g).front_model).songs =
      (s.modelAt s.front_model).songs ∧
    (s.SetGroupBy g).art_requests = [] := by
  unfold TidalSearchView.SetGroupBy TidalSearchModel.SetGroupBy
  cases s.front_model <;>
    simp [TidalSearchView.modelAt, TidalSearchView.setModelAt, MPtr.other]

/-- Witness for C8 at a concrete Populating state. -/
theorem C8_witness :
    ((({ initView with swap_timer_active := true }).SetGroupBy ⟨2, 3, 4⟩).art_requests = []) :=
  (C8_regroup_preserves_results { initView with swap_timer_active := true } ⟨2, 3, 4⟩
    rfl).2.2.2.2

/-- Claim C1: over every event sequence from construction, a delivered
result event mutates the state only when its id is the current
outstanding id, and an engine-issued id that is not the most recently
issued one never matches the outstanding id — its result event is
dropped with no state mutation and no container update. -/
theorem C1_stale_results_dropped (es : List Event) (i : Int) (rs : ResultList) :
    (i ≠ (run initView es).1.last_search_id →
      (run initView es).1.AddResults i rs = (run initView es).1) ∧
    (i ∈ issuedIds (run initView es).2 →
      (issuedIds (run initView es).2).getLast? ≠ some i →
      (run initView es).1.AddResults i rs = (run initView es).1) := by
  have hinv := run_IdInv initView es [] idInv_init
  rw [List.nil_append] at hinv
  rcases hinv with ⟨ha, hb, hc⟩
  have hdrop : ∀ j : Int, j ≠ (run initView es).1.last_search_id →
      (run initView es).1.AddResults j rs = (run initView es).1 := by
    intro j hj
    unfold TidalSearchView.AddResults
    rw [if_pos hj]
  refine ⟨hdrop i, ?_⟩
  intro hmem hlast
  have h1 : (1 : Int) ≤ i := ha i hmem
  refine hdrop i ?_
  rcases hc with hl | ⟨h0, hemp⟩ | hl
  · rw [hl]
    omega
  · rw [hemp] at hmem
    simp at hmem
  · intro he
    rw [he] at hlast
    exact hlast hl

/-- Witness for C1: after submitting `"a"` (id 1) and then `"ab"`
(id 2), a result event for the superseded id 1 — and one for the
never-issued id 5 — leaves the state unchanged. -/
theorem C1_witness :
    (run initView [Event.textChanged "a", Event.textChanged "ab"]).1.AddResults 5
        [⟨"x"⟩] =
      (run initView [Event.textChanged "a", Event.textChanged "ab"]).1 ∧
    (run initView [Event.textChanged "a", Event.textChanged "ab"]).1.AddResults 1
        [⟨"x"⟩] =
      (run initView [Event.textChanged "a", Event.textChanged "ab"]).1 :=
  ⟨(C1_stale_results_dropped [Event.textChanged "a", Event.textChanged "ab"] 5
      [⟨"x"⟩]).1 (by decide),
   (C1_stale_results_dropped [Event.textChanged "a", Event.textChanged "ab"] 1
      [⟨"x"⟩]).2 (by decide) (by decide)⟩

/-- Claim C9: submitting empty or whitespace-only text once or
repeatedly, from any state, never issues a search request toward the
engine, leaves the sentinel outstanding id `-1`, and once the pending
swap fires the help panel is shown.  (All operations are total Lean
functions, so no invocation can throw.) -/
theorem C9_empty_submit_idempotent (s : TidalSearchView) (w : String) (ws : List String)
    (hw : qtrim w = "") (hws : ∀ x ∈ ws, qtrim x = "") :
    issuedIds (run s ((w :: ws).map Event.textChanged ++ [Event.timerTimeout])).2 = [] ∧
    (run s ((w :: ws).map Event.textChanged ++ [Event.timerTimeout])).1.results_stack =
      Page.help_page ∧
    (run s ((w :: ws).map Event.textChanged ++ [Event.timerTimeout])).1.last_search_id =
      -1 := by
  induction ws generalizing s w with
  | nil =>
      have hstep : step s (Event.textChanged w) =
          ({ s with search_text := w }).TextEdited w := rfl
      have h1 := textEdited_last_search_id ({ s with search_text := w }) w
      rw [if_pos hw] at h1
      have h2 := textEdited_actions ({ s with search_text := w }) w
      rw [if_pos hw] at h2
      have h3 := textEdited_timer_active ({ s with search_text := w }) w
      have h4 := textEdited_search_text ({ s with search_text := w }) w
      have hfire : step (({ s with search_text := w }).TextEdited w).1 Event.timerTimeout =
          ((({ (({ s with search_text := w }).TextEdited w).1 with
              swap_timer_active := false }).SwapModels), []) := by
        show (if (({ s with search_text := w }).TextEdited w).1.swap_timer_active then _
          else _) = _
        rw [h3]
        simp
      show issuedIds ((step s (Event.textChanged w)).2 ++
        (run (step s (Event.textChanged w)).1 [Event.timerTimeout]).2) = [] ∧ _ ∧ _
      rw [hstep]
      show _ ∧
        (run (({ s with search_text := w }).TextEdited w).1
          [Event.timerTimeout]).1.results_stack = Page.help_page ∧
        (run (({ s with search_text := w }).TextEdited w).1
          [Event.timerTimeout]).1.last_search_id = -1
      have hrun1 : run (({ s with search_text := w }).TextEdited w).1 [Event.timerTimeout] =
          ((step (({ s with search_text := w }).TextEdited w).1 Event.timerTimeout).1,
           (step (({ s with search_text := w }).TextEdited w).1 Event.timerTimeout).2
             ++ []) := rfl
      rw [hrun1, hfire]
      refine ⟨?_, ?_, ?_⟩
      · rw [h2]
        rfl
      · rw [swapModels_results_stack]
        have hq : qtrim ({ (({ s with search_text := w }).TextEdited w).1 with
            swap_timer_active := false } : TidalSearchView).search_text = "" := by
          show qtrim (({ s with search_text := w }).TextEdited w).1.search_text = ""
          rw [h4]
          exact hw
        rw [if_pos (Or.inl hq)]
      · rw [swapModels_last_search_id]
        show (({ s with search_text := w }).TextEdited w).1.last_search_id = -1
        exact h1
  | cons w' ws' ih =>
      have hw' : qtrim w' = "" := hws w' (List.mem_cons_self w' ws')
      have hws' : ∀ x ∈ ws', qtrim x = "" := fun x hx => hws x (List.mem_cons_of_mem w' hx)
      have hstep : step s (Event.textChanged w) =
          ({ s with search_text := w }).TextEdited w := rfl
      have h2 := textEdited_actions ({ s with search_text := w }) w
      rw [if_pos hw] at h2
      have ihs := ih (({ s with search_text := w }).TextEdited w).1 w' hw' hws'
      show issuedIds ((step s (Event.textChanged w)).2 ++
          (run (step s (Event.textChanged w)).1
            ((w' :: ws').map Event.textChanged ++ [Event.timerTimeout])).2) = [] ∧
        (run (step s (Event.textChanged w)).1
          ((w' :: ws').map Event.textChanged ++ [Event.timerTimeout])).1.results_stack =
          Page.help_page ∧
        (run (step s (Event.textChanged w)).1
          ((w' :: ws').map Event.textChanged ++ [Event.timerTimeout])).1.last_search_id =
          -1
      rw [hstep]
      refine ⟨?_, ihs.2.1, ihs.2.2⟩
      rw [issuedIds_append, h2, ihs.1]
      rfl

/-- Witness for C9: from the initial state, submitting `" "` and then
`""` and letting the timer fire shows the help page, leaves the sentinel
id, and issued no search. -/
theorem C9_witness :
    issuedIds (run initView ((" " :: [""]).map Event.textChanged ++
      [Event.timerTimeout])).2 = [] ∧
    (run initView ((" " :: [""]).map Event.textChanged ++
      [Event.timerTimeout])).1.results_stack = Page.help_page ∧
    (run initView ((" " :: [""]).map Event.textChanged ++
      [Event.timerTimeout])).1.last_search_id = -1 :=
  C9_empty_submit_idempotent initView " " [""] (by decide) (by decide)

/-- Claim C4: whenever new query text arrives (any state reachable from
construction, any text), the back container is cleared, it becomes the
write target for incoming results, and the single-shot swap timer is
(re)started with the fixed 250 ms delay. -/
theorem C4_new_text_populates_back_and_arms_timer (es : List Event) (text : String) :
    ((step (run initView es).1 (Event.textChanged text)).1.modelAt
        (((step (run initView es).1 (Event.textChanged text)).1.front_model).other)).songs
      = [] ∧
    (step (run initView es).1 (Event.textChanged text)).1.current_model =
      ((step (run initView es).1 (Event.textChanged text)).1.front_model).other ∧
    (step (run initView es).1 (Event.textChanged text)).1.current_proxy =
      ((step (run initView es).1 (Event.textChanged text)).1.front_proxy).other ∧
    (step (run initView es).1 (Event.textChanged text)).1.swap_timer_active = true ∧
    (step (run initView es).1 (Event.textChanged text)).1.swap_timer_interval = 250 := by
  have hrun : ∀ s : TidalSearchView, ∀ l : List Event,
      (run s l).1.swap_timer_interval = s.swap_timer_interval := by
    intro s l
    induction l generalizing s with
    | nil => rfl
    | cons e l ih =>
        show (run (step s e).1 l).1.swap_timer_interval = _
        rw [ih]
        cases e with
        | textChanged t => exact textEdited_interval _ t
        | startSearch q => exact startSearch_interval s q
        | timerTimeout =>
            show (if s.swap_timer_active then _ else (s, [])).1.swap_timer_interval = _
            split
            · exact swapModels_interval _
            · rfl
        | addResults i rs =>
            show (s.AddResults i rs).swap_timer_interval = _
            unfold TidalSearchView.AddResults
            split
            · rfl
            · split <;> simp
        | searchError i m => rfl
        | setGroupBy g =>
            show (s.SetGroupBy g).swap_timer_interval = _
            unfold TidalSearchView.SetGroupBy
            simp
  have hstep : step (run initView es).1 (Event.textChanged text) =
      ({ (run initView es).1 with search_text := text }).TextEdited text := rfl
  rw [hstep]
  refine ⟨textEdited_back_cleared _ text, ?_, ?_, textEdited_timer_active _ text, ?_⟩
  · rw [textEdited_current_model, textEdited_front_model]
  · rw [textEdited_current_proxy, textEdited_front_proxy]
  · rw [textEdited_interval]
    show (run initView es).1.swap_timer_interval = 250
    rw [hrun]
    rfl

/-- Claim C5: the explicit immediate-search trigger (`StartSearch`)
cancels the pending swap timer and performs the front/back swap
synchronously before returning: afterwards the timer is stopped, the
container that was being populated is the front (visible) one, the
results view displays the front proxy, and the stacked widget already
shows the results page (or the help page for a trimmed-empty query). -/
theorem C5_start_search_swaps_synchronously (s : TidalSearchView) (query : String) :
    (s.StartSearch query).1.swap_timer_active = false ∧
    (s.StartSearch query).1.front_model = (s.StartSearch query).1.current_model ∧
    (s.StartSearch query).1.results_view_model = some (s.StartSearch query).1.front_proxy ∧
    (s.StartSearch query).1.results_stack =
      (if qtrim query = "" then Page.help_page else Page.results_page) := by
  have h1 : (s.StartSearch query).1 =
      ({ ((s.setText query).1.TextEdited query).1 with
          swap_timer_active := false } : TidalSearchView).SwapModels := rfl
  rw [h1]
  refine ⟨?_, ?_, swapModels_view_is_front _, ?_⟩
  · rw [swapModels_timer_active]
  · rw [swapModels_current_model]
    show _ = ((s.setText query).1.TextEdited query).1.current_model
    rw [textEdited_current_model, swapModels_eq]
    show ((((s.setText query).1.TextEdited query).1.front_model)).other =
      ((s.setText query).1.front_model).other
    rw [textEdited_front_model]
  · rw [swapModels_results_stack]
    show (if qtrim ((s.setText query).1.TextEdited query).1.search_text = ""
        ∨ ((s.setText query).1.TextEdited query).1.error = true
      then Page.help_page else Page.results_page) = _
    rw [textEdited_search_text, textEdited_error, setText_search_text]
    simp

/-- Claim C3 (amended): every submit — empty or not — first cancels the
previously issued id; with trimmed-empty text the sentinel id `-1`
becomes current and no new asynchronous search is issued, while with
non-empty trimmed text a new asynchronous search is issued whose fresh
id becomes the current outstanding id. -/
theorem C3_submit_cancels_then_searches (s : TidalSearchView) (text : String) :
    (s.TextEdited text).2 =
      (if qtrim text = "" then [EngineAction.cancelSearch s.last_search_id]
       else [EngineAction.cancelSearch s.last_search_id,
             EngineAction.searchAsync s.engine_next_id (qtrim text) s.searchby]) ∧
    (s.TextEdited text).1.last_search_id =
      (if qtrim text = "" then -1 else s.engine_next_id) := by
  rw [textEdited_eq]
  split <;> simp

/-- Counterexample to claim C3 as stated: submitting `"a"` issues search
id 1; then submitting the whitespace-only text `" "` does perform a
network action — it cancels id 1 — although the claim says a
trimmed-empty submit performs no cancellation.  (The sentinel id `-1` is
still returned and no new search is issued.) -/
theorem C3_counterexample :
    issuedIds (run initView [Event.textChanged "a"]).2 = [1] ∧
    (step (run initView [Event.textChanged "a"]).1 (Event.textChanged " ")).2 =
      [EngineAction.cancelSearch 1] ∧
    (step (run initView [Event.textChanged "a"]).1
        (Event.textChanged " ")).1.last_search_id = -1 :=
  ⟨rfl, rfl, rfl⟩

/-- Claim C2 fails on the code: `SearchError` never reads its `id`
parameter.  After submitting `"ab"` the outstanding id is 1, yet a
delivered error event carrying the stale id 99 still mutates the state —
the error flag is raised, the help label is replaced by the message, and
the help page is shown. -/
theorem C2_stale_error_event_still_applied :
    (run initView [Event.textChanged "ab"]).1.last_search_id = 1 ∧
    (run initView [Event.textChanged "ab"]).1.error = false ∧
    ((run initView [Event.textChanged "ab"]).1.SearchError 99 "Network error").error
      = true ∧
    ((run initView [Event.textChanged "ab"]).1.SearchError 99 "Network error").label_helptext
      = "Network error" ∧
    ((run initView [Event.textChanged "ab"]).1.SearchError 99 "Network error").results_stack
      = Page.help_page :=
  ⟨rfl, rfl, rfl, rfl, rfl⟩

/-- Claim C10: a delivered result event whose result list is empty
mutates no container, even when its id equals the current outstanding
search id: the state is unchanged by the event. -/
theorem C10_empty_result_list_is_noop (s : TidalSearchView) (id : Int) :
    s.AddResults id [] = s := by
  unfold TidalSearchView.AddResults
  split <;> simp

end Strawberry
